import Mathlib

/-!
Verification development for the GT club chatbot backend (`hello.py`).

The file shallowly embeds the conversational-memory pipeline of the Flask
application: identity resolution (`get_user_id`), session resolve-or-create
(`get_or_create_default_session`), the recent-history window query, catalog
and prompt composition, the `/chat` orchestrator, and the `/auth/register`
endpoint.  External collaborators (MongoDB, the Gemini model, JWT
verification) are modelled as explicit state / oracle parameters; machine
arithmetic (SHA-256) is carried out on `Nat` with explicit truncation.
-/

/-! ## SHA-256 (model of Python `hashlib.sha256`)

`get_user_id` computes `hashlib.sha256(raw.encode()).hexdigest()[:32]`.
We implement SHA-256 (FIPS 180-4) over byte lists, with 32-bit words
represented as `Nat` truncated by `&&& 0xffffffff` / `% 2^32`. -/

def w32 : Nat := 2 ^ 32

def mask32 : Nat := 0xffffffff

def trunc32 (x : Nat) : Nat := x &&& mask32

def add32 (a b : Nat) : Nat := (a + b) % w32

def rotr32 (n x : Nat) : Nat := (x >>> n) ||| trunc32 (x <<< (32 - n))

def not32 (x : Nat) : Nat := x ^^^ mask32

/-- Initial hash state H(0) of SHA-256, eight 32-bit words. -/
structure Hash8 where
  a : Nat
  b : Nat
  c : Nat
  d : Nat
  e : Nat
  f : Nat
  g : Nat
  h : Nat
deriving Repr, DecidableEq

def sha256InitHash : Hash8 :=
  ⟨1779033703, 3144134277, 1013904242, 2773480762,
   1359893119, 2600822924, 528734635, 1541459225⟩

/-- The 64 SHA-256 round constants K. -/
def sha256K : List Nat :=
  [1116352408, 1899447441, 3049323471, 3921009573, 961987163,
   1508970993, 2453635748, 2870763221, 3624381080, 310598401,
   607225278, 1426881987, 1925078388, 2162078206, 2614888103,
   3248222580, 3835390401, 4022224774, 264347078, 604807628,
   770255983, 1249150122, 1555081692, 1996064986, 2554220882,
   2821834349, 2952996808, 3210313671, 3336571891, 3584528711,
   113926993, 338241895, 666307205, 773529912, 1294757372,
   1396182291, 1695183700, 1986661051, 2177026350, 2456956037,
   2730485921, 2820302411, 3259730800, 3345764771, 3516065817,
   3600352804, 4094571909, 275423344, 430227734, 506948616,
   659060556, 883997877, 958139571, 1322822218, 1537002063,
   1747873779, 1955562222, 2024104815, 2227730452, 2361852424,
   2428436474, 2756734187, 3204031479, 3329325298]

/-- SHA-256 padding: append `0x80`, zero bytes until the length is 56 mod 64,
then the 64-bit big-endian bit length of the message. -/
def sha256pad (msg : List Nat) : List Nat :=
  let bitLen := msg.length * 8
  let zeros := (120 - ((msg.length + 1) % 64)) % 64
  let lenBytes := (List.range 8).map (fun i => (bitLen >>> (8 * (7 - i))) % 256)
  msg ++ [0x80] ++ List.replicate zeros 0 ++ lenBytes

/-- Split a byte list into chunks of 64 bytes.  Written with explicit fuel
(one unit per chunk suffices, the length certainly does) so that the
recursion is structural and kernel-reducible. -/
def chunk64Go : Nat → List Nat → List (List Nat)
  | 0, _ => []
  | _, [] => []
  | fuel + 1, x :: xs => (x :: xs).take 64 :: chunk64Go fuel ((x :: xs).drop 64)

def chunk64 (l : List Nat) : List (List Nat) := chunk64Go l.length l

/-- Big-endian 4-byte groups to 32-bit words. -/
def bytesToWords : List Nat → List Nat
  | b0 :: b1 :: b2 :: b3 :: rest =>
      (((b0 * 256 + b1) * 256 + b2) * 256 + b3) :: bytesToWords rest
  | _ => []

def sigma0 (x : Nat) : Nat := rotr32 7 x ^^^ rotr32 18 x ^^^ (x >>> 3)

def sigma1 (x : Nat) : Nat := rotr32 17 x ^^^ rotr32 19 x ^^^ (x >>> 10)

/-- Message schedule: extend the 16 block words to 64 words. -/
def sha256schedule (ws : List Nat) : List Nat :=
  (List.range 64).foldl
    (fun acc t =>
      if t < 16 then acc ++ [ws.getD t 0]
      else
        acc ++ [(acc.getD (t - 16) 0 + sigma0 (acc.getD (t - 15) 0) +
                 acc.getD (t - 7) 0 + sigma1 (acc.getD (t - 2) 0)) % w32])
    []

def bigSigma0 (x : Nat) : Nat := rotr32 2 x ^^^ rotr32 13 x ^^^ rotr32 22 x

def bigSigma1 (x : Nat) : Nat := rotr32 6 x ^^^ rotr32 11 x ^^^ rotr32 25 x

/-- One SHA-256 round on the working variables, given (W_t, K_t). -/
def sha256round (st : Hash8) (kw : Nat × Nat) : Hash8 :=
  let ch := (st.e &&& st.f) ^^^ (not32 st.e &&& st.g)
  let temp1 := (st.h + bigSigma1 st.e + ch + kw.2 + kw.1) % w32
  let maj := (st.a &&& st.b) ^^^ (st.a &&& st.c) ^^^ (st.b &&& st.c)
  let temp2 := (bigSigma0 st.a + maj) % w32
  ⟨(temp1 + temp2) % w32, st.a, st.b, st.c, (st.d + temp1) % w32, st.e, st.f, st.g⟩

/-- Compress one 64-byte block into the running hash. -/
def sha256compress (H : Hash8) (block : List Nat) : Hash8 :=
  let W := sha256schedule (bytesToWords block)
  let z := (W.zip sha256K).foldl sha256round H
  ⟨add32 H.a z.a, add32 H.b z.b, add32 H.c z.c, add32 H.d z.d,
   add32 H.e z.e, add32 H.f z.f, add32 H.g z.g, add32 H.h z.h⟩

/-- SHA-256 of a byte list, as the final eight 32-bit words. -/
def sha256words (msg : List Nat) : Hash8 :=
  (chunk64 (sha256pad msg)).foldl sha256compress sha256InitHash

/-- The lowercase hexadecimal digit for a nibble value: 0-9 map to the
digit characters, 10-15 to the letters a-f (codepoints 48 + n and
87 + n respectively); out-of-range values never arise at call sites. -/
def hexDigitChar (n : Nat) : Char :=
  if n < 10 then Char.ofNat (n + 48)
  else if n < 16 then Char.ofNat (n + 87)
  else Char.ofNat 48

/-- Fixed-width lowercase hex rendering of a number: exactly `d` digits. -/
def toHexFixed : Nat → Nat → List Char
  | 0, _ => []
  | d + 1, n => toHexFixed d (n / 16) ++ [hexDigitChar (n % 16)]

/-- The character list of the Python `hashlib.sha256(msg).hexdigest()` call:
eight words, eight lowercase hex digits each. -/
def sha256hexChars (msg : List Nat) : List Char :=
  let z := sha256words msg
  [z.a, z.b, z.c, z.d, z.e, z.f, z.g, z.h].flatMap (toHexFixed 8)

/-- Model of Python `str.strip()`: remove leading and trailing whitespace
characters from both ends of the string. -/
def pyStrip (s : String) : String :=
  String.mk (((s.data.dropWhile Char.isWhitespace).reverse.dropWhile
    Char.isWhitespace).reverse)

/-! ## UTF-8 encoding (model of Python `str.encode()`) -/

def utf8EncodeCharBytes (c : Char) : List Nat :=
  let n := c.toNat
  if n < 0x80 then [n]
  else if n < 0x800 then
    [0xc0 ||| (n >>> 6), 0x80 ||| (n &&& 0x3f)]
  else if n < 0x10000 then
    [0xe0 ||| (n >>> 12), 0x80 ||| ((n >>> 6) &&& 0x3f), 0x80 ||| (n &&& 0x3f)]
  else
    [0xf0 ||| (n >>> 18), 0x80 ||| ((n >>> 12) &&& 0x3f),
     0x80 ||| ((n >>> 6) &&& 0x3f), 0x80 ||| (n &&& 0x3f)]

def utf8Bytes (s : String) : List Nat := s.data.flatMap utf8EncodeCharBytes

/-! ## Data model

MongoDB collections are modelled as in-memory lists of documents, in
insertion order (`find_one` / `find` return matches in that order, matching
the natural-order scan of these small unindexed queries; the history query
sorts explicitly by `ts`). -/

/-- A document of `messages_collection`: one conversation turn. -/
structure Turn where
  user_id : String
  session_id : String
  role : String
  text : String
  ts : Rat
deriving Repr, DecidableEq

/-- A document of `sessions_collection`.  `title` and `created_at` are
optional because the `touch` upsert in `/chat` creates documents carrying
only `user_id`, `session_id`, `updated_at`. -/
structure Session where
  user_id : String
  session_id : String
  title : Option String
  created_at : Option Rat
  updated_at : Rat
deriving Repr, DecidableEq

/-- A document of the club catalog collection; `/chat` reads the three
rendered fields through `.get` with defaults, so they are optional. -/
structure Club where
  club_name : Option String
  description : Option String
  majors : Option String
deriving Repr, DecidableEq

/-- A document of `users_collection`. -/
structure UserDoc where
  email : String
  password : String
  name : String
  favorite_clubs : List String
deriving Repr, DecidableEq

/-- The mutable store state touched by the chat pipeline. -/
structure Store where
  sessions : List Session
  messages : List Turn
deriving Repr, DecidableEq

/-- The request metadata read by `get_user_id`: the `Authorization` header,
`request.remote_addr` and `request.user_agent.string` (each may be absent,
in which case the code substitutes the empty string). -/
structure ReqMeta where
  authorization : Option String
  remote_addr : Option String
  user_agent : Option String
deriving Repr, DecidableEq

/-! ## Memory utilities (`hello.py` lines 54-78) -/

/-- The anonymous fingerprint of `get_user_id`:
`hashlib.sha256(raw.encode()).hexdigest()[:32]` where `raw` is the
concatenation of `request.remote_addr` and `request.user_agent.string`,
each replaced by the empty string when falsy. -/
def anonFingerprint (req : ReqMeta) : List Char :=
  (sha256hexChars (utf8Bytes (req.remote_addr.getD "" ++ req.user_agent.getD ""))).take 32

/-- Model of `get_user_id` (lines 54-64).  `jwtVerify` models
`jwt.decode(tok, SECRET_KEY, HS256)` followed by reading the email field
of the decoded payload: it returns the subject email of a token that verifies
against the server secret, and `none` when any step of that `try` block
raises (malformed, bad signature, expired, or no email claim) — the
exception is swallowed and the anonymous path is taken. -/
def get_user_id (jwtVerify : String → Option String) (req : ReqMeta) : String :=
  match req.authorization with
  | some token =>
      if token.startsWith "Bearer " then
        match jwtVerify (token.drop 7) with
        | some email => "email:" ++ email
        | none => "anon:" ++ String.mk (anonFingerprint req)
      else "anon:" ++ String.mk (anonFingerprint req)
  | none => "anon:" ++ String.mk (anonFingerprint req)

/-- Model of `get_or_create_default_session` (lines 66-78): look up the
`(user_id, "default")` session with `find_one`; insert it if absent.
Returns the sentinel id together with the updated store. -/
def get_or_create_default_session (user_id : String) (st : Store) (now : Rat) :
    String × Store :=
  let sid := "default"
  match st.sessions.find? (fun s => s.user_id == user_id && s.session_id == sid) with
  | some _ => (sid, st)
  | none =>
      (sid, { st with sessions := st.sessions ++
        [{ user_id := user_id, session_id := sid, title := some "Default chat",
           created_at := some now, updated_at := now }] })

/-! ## Chat pipeline pieces (`hello.py` lines 339-464) -/

/-- The history query of STEP 3 (lines 383-387):
`find({user_id, session_id}).sort("ts", -1).limit(8)`, then `reversed`. -/
def recentWindow (msgs : List Turn) (uid sid : String) : List Turn :=
  ((((msgs.filter (fun m => m.user_id == uid && m.session_id == sid)).mergeSort
      (fun x y => decide (y.ts ≤ x.ts))).take 8)).reverse

/-- Line 388: render the history into the readable conversation block
(each turn rendered as the title-cased role, a colon and a space, and the
turn text, the lines joined by newlines; the roles here are the single
words `user` / `assistant`, for which Python `.title()` agrees with
`String.capitalize`). -/
def historyText (history : List Turn) : String :=
  String.intercalate "\n" (history.map (fun m => m.role.capitalize ++ ": " ++ m.text))

/-- STEP 5 (lines 404-410): the catalog block of the prompt. -/
def clubsContext (clubs : List Club) : String :=
  if clubs.isEmpty then "No clubs are currently in the database."
  else
    String.intercalate "\n"
      ((clubs.take 20).map (fun club =>
        "Club: " ++ club.club_name.getD "Unknown" ++ " - " ++
        club.description.getD "No description" ++ " - Majors: " ++
        club.majors.getD "N/A"))

/-- STEP 6 (lines 415-424): the system prompt f-string. -/
def systemPrompt (clubs_context history_text : String) : String :=
  "You are a helpful assistant for Georgia Tech students looking for clubs to join.\n\nHere are some available clubs at Georgia Tech:\n\n" ++
  clubs_context ++ "\n\nPrevious conversation:\n" ++ history_text ++
  "\n\nPlease help students find clubs that match their interests, majors, or goals."

/-- STEP 8 (lines 446-450): `sessions_collection.update_one({user_id,
session_id}, {$set: {updated_at: now}}, upsert=True)` — set `updated_at`
on the first matching session document, inserting a bare document when
none matches. -/
def setUpdatedAt (sessions : List Session) (uid sid : String) (now : Rat) : List Session :=
  match sessions with
  | [] => []
  | s :: rest =>
      if s.user_id == uid && s.session_id == sid then
        { s with updated_at := now } :: rest
      else s :: setUpdatedAt rest uid sid now

def touchSession (st : Store) (uid sid : String) (now : Rat) : Store :=
  if st.sessions.any (fun s => s.user_id == uid && s.session_id == sid) then
    { st with sessions := setUpdatedAt st.sessions uid sid now }
  else
    { st with sessions := st.sessions ++
      [{ user_id := uid, session_id := sid, title := none,
         created_at := none, updated_at := now }] }

/-! ## The `/chat` orchestrator (`hello.py` lines 339-464) -/

/-- Result of `model.generate_content(full_prompt)`: either the call raises
(caught by the outer `except` of the route, yielding a 500), or it returns
a response object whose `text` attribute may be present or absent — line
431 reads it through `getattr` with the fallback literal
`I could not generate a response.` -/
inductive GenOutcome where
  | raise (msg : String)
  | ok (text : Option String)
deriving Repr, DecidableEq

/-- The external collaborators of one `/chat` request: Gemini availability,
the catalog read (`collection.find({})`, which may raise — caught by the
inner `try` of STEP 4), the model call as a function of the composed
prompt, and the three STEP 8 store writes, each either succeeding or
raising with a message (caught by the outer `except`). -/
structure ChatEnv where
  geminiAvailable : Bool
  clubsResult : Except String (List Club)
  gen : String → GenOutcome
  insertUserErr : Option String
  insertAssistantErr : Option String
  touchErr : Option String

/-- The JSON body of a `/chat` request.  `none` at the route models
`request.get_json()` being `None` (or an empty, falsy object). -/
structure ChatBody where
  message : Option String
  session_id : Option String
deriving Repr, DecidableEq

/-- The HTTP outcome of `/chat`: `success` is the 200 body
`{success: true, response, session_id}`; `failure` is
`{success: false, error}` (or `{error}`) with the given status code. -/
inductive ChatOutcome where
  | success (response : String) (session_id : String)
  | failure (error : String) (status : Nat)
deriving Repr, DecidableEq

/-- Model of the `chat` route (lines 339-464), step for step, including the
starter-placeholder lines 374-375 and 391 that overwrite the computed
`user_id` / `session_id` / `history_text` before they are used.
Python string `.strip()` is modelled by `String.trim`, `or` on strings by
an emptiness test, and `time.time()` by the `now : Rat` parameter
(the assistant turn gets `now + 0.001`). -/
def chat (jwtVerify : String → Option String) (env : ChatEnv) (req : ReqMeta)
    (body : Option ChatBody) (now : Rat) (st : Store) : ChatOutcome × Store :=
  -- STEP 0: Gemini must be configured
  if !env.geminiAvailable then
    (.failure "Gemini API key not configured. Please set GEMINI_API_KEY in your .env file." 400, st)
  else
    match body with
    | none => (.failure "No JSON data provided" 400, st)
    | some data =>
      -- STEP 1: validation
      let user_message := pyStrip (data.message.getD "")
      if user_message = "" then (.failure "No message provided" 400, st)
      else
        -- STEP 2: solution lines 370-371 run (with their side effect) ...
        let real_user_id := get_user_id jwtVerify req
        let requested := pyStrip (data.session_id.getD "")
        let step2 :=
          if requested ≠ "" then (requested, st)
          else get_or_create_default_session real_user_id st now
        let st1 := step2.2
        -- ... and are then overwritten by the starter placeholders (374-375)
        let user_id := "demo-user"
        let session_id := "demo-session"
        -- STEP 3: history is fetched (383-388) ...
        let history := recentWindow st1.messages user_id session_id
        let history_text := historyText history
        -- ... and then overwritten by the starter fallback (line 391)
        let history_text2 := ""
        -- STEP 4: catalog read
        match env.clubsResult with
        | .error e => (.failure ("Error fetching clubs from database: " ++ e) 500, st1)
        | .ok clubs =>
          -- STEP 5 and 6: prompt composition
          let clubs_context := clubsContext clubs
          let system_prompt := systemPrompt clubs_context history_text2
          let full_prompt := system_prompt ++ "\n\nUser: " ++ user_message ++ "\n\nAssistant:"
          -- STEP 7: model call
          match env.gen full_prompt with
          | .raise e => (.failure ("Unexpected error: " ++ e) 500, st1)
          | .ok txt =>
            let bot_response := txt.getD "I could not generate a response."
            -- STEP 8: persist both turns, then touch the session
            match env.insertUserErr with
            | some e => (.failure ("Unexpected error: " ++ e) 500, st1)
            | none =>
              let st2 := { st1 with messages := st1.messages ++
                [{ user_id := user_id, session_id := session_id, role := "user",
                   text := user_message, ts := now }] }
              match env.insertAssistantErr with
              | some e => (.failure ("Unexpected error: " ++ e) 500, st2)
              | none =>
                let st3 := { st2 with messages := st2.messages ++
                  [{ user_id := user_id, session_id := session_id, role := "assistant",
                     text := bot_response, ts := now + 1 / 1000 }] }
                match env.touchErr with
                | some e => (.failure ("Unexpected error: " ++ e) 500, st3)
                | none =>
                  let st4 := touchSession st3 user_id session_id now
                  -- STEP 9: respond
                  (.success bot_response session_id, st4)

/-! ## The `/auth/register` endpoint (`hello.py` lines 114-152) -/

structure RegisterBody where
  email : Option String
  password : Option String
  name : Option String
deriving Repr, DecidableEq

inductive RegisterOutcome where
  | created (email name : String)
  | badRequest (error : String)
  | serverError (error : String)
deriving Repr, DecidableEq

/-- Model of the `register` route.  Note: `hello.py` never imports `bcrypt`,
so once validation and the duplicate check pass, evaluating
`bcrypt.hashpw(...)` at line 131 raises a `NameError` saying that the name
`bcrypt` is not defined, which the surrounding `except` converts into a 500
response with `str(e)` as the error; no user document is ever inserted.
The quotation marks that Python places around the offending names inside
the two exception messages are elided here.  (`body = none` models
`request.get_json()` returning `None`, on which `.get` raises an
`AttributeError`, also caught as a 500.) -/
def register (body : Option RegisterBody) (users : List UserDoc) :
    RegisterOutcome × List UserDoc :=
  match body with
  | none => (.serverError "NoneType object has no attribute get", users)
  | some data =>
    let email := data.email.getD ""
    let password := data.password.getD ""
    let name := data.name.getD ""
    if email = "" ∨ password = "" ∨ name = "" then
      (.badRequest "Email, password, and name are required", users)
    else if users.any (fun u => u.email == email) then
      (.badRequest "User already exists", users)
    else
      (.serverError "name bcrypt is not defined", users)

/-! ## Helper lemmas -/

/-- Lowercase hexadecimal digits, the alphabet of Python `hexdigest()`. -/
def isHexLowerDigit (c : Char) : Bool := c.isDigit || ('a' ≤ c && c ≤ 'f')

theorem length_toHexFixed (d n : Nat) : (toHexFixed d n).length = d := by
  induction d generalizing n with
  | zero => rfl
  | succ d ih => simp [toHexFixed, ih]

theorem isHexLowerDigit_hexDigitChar (k : Nat) : isHexLowerDigit (hexDigitChar k) = true := by
  rcases Nat.lt_or_ge k 16 with h | h
  · interval_cases k <;> decide
  · have h10 : ¬ k < 10 := by omega
    have h16 : ¬ k < 16 := by omega
    rw [hexDigitChar, if_neg h10, if_neg h16]
    decide

theorem mem_toHexFixed_isHex (d n : Nat) (c : Char) (hc : c ∈ toHexFixed d n) :
    isHexLowerDigit c = true := by
  induction d generalizing n with
  | zero => simp [toHexFixed] at hc
  | succ d ih =>
    simp only [toHexFixed, List.mem_append, List.mem_singleton] at hc
    rcases hc with hc | hc
    · exact ih _ hc
    · rw [hc]; exact isHexLowerDigit_hexDigitChar _

theorem length_sha256hexChars (msg : List Nat) : (sha256hexChars msg).length = 64 := by
  simp [sha256hexChars, length_toHexFixed]

theorem mem_sha256hexChars_isHex (msg : List Nat) (c : Char)
    (hc : c ∈ sha256hexChars msg) : isHexLowerDigit c = true := by
  simp only [sha256hexChars, List.mem_flatMap] at hc
  obtain ⟨w, _, hw⟩ := hc
  exact mem_toHexFixed_isHex 8 w c hw

theorem length_anonFingerprint (req : ReqMeta) : (anonFingerprint req).length = 32 := by
  simp [anonFingerprint, List.length_take, length_sha256hexChars]

theorem get_or_create_messages (uid : String) (st : Store) (n : Rat) :
    (get_or_create_default_session uid st n).2.messages = st.messages := by
  simp only [get_or_create_default_session]
  cases h : st.sessions.find? (fun s => s.user_id == uid && s.session_id == "default") <;>
    simp [h]

theorem touchSession_messages (st : Store) (uid sid : String) (n : Rat) :
    (touchSession st uid sid n).messages = st.messages := by
  unfold touchSession
  split <;> rfl

/-! ## Claim theorems -/

/-- C6: identity resolution (`get_user_id`) never raises and always returns
a non-empty string: `email:` followed by the subject email when a Bearer
token verifies against the server secret, and otherwise — including for a
missing, malformed, or expired token — `anon:` followed by the first 32
(lowercase hex) characters of the SHA-256 hex digest of the remote address
concatenated with the user-agent string. -/
theorem get_user_id_total_and_classified
    (jwtVerify : String → Option String) (req : ReqMeta) :
    0 < (get_user_id jwtVerify req).length ∧
    ((∃ tok email, req.authorization = some tok ∧ tok.startsWith "Bearer " = true ∧
        jwtVerify (tok.drop 7) = some email ∧
        get_user_id jwtVerify req = "email:" ++ email) ∨
      (get_user_id jwtVerify req = "anon:" ++ String.mk (anonFingerprint req) ∧
        (anonFingerprint req).length = 32 ∧
        ∀ c ∈ anonFingerprint req, isHexLowerDigit c = true)) := by
  have hhex : ∀ c ∈ anonFingerprint req, isHexLowerDigit c = true := by
    intro c hc
    exact mem_sha256hexChars_isHex _ c (List.mem_of_mem_take hc)
  have main : (∃ tok email, req.authorization = some tok ∧ tok.startsWith "Bearer " = true ∧
      jwtVerify (tok.drop 7) = some email ∧
      get_user_id jwtVerify req = "email:" ++ email) ∨
      get_user_id jwtVerify req = "anon:" ++ String.mk (anonFingerprint req) := by
    cases hauth : req.authorization with
    | none => exact Or.inr (by simp [get_user_id, hauth])
    | some tok =>
      by_cases hb : tok.startsWith "Bearer " = true
      · cases hv : jwtVerify (tok.drop 7) with
        | some email =>
            exact Or.inl ⟨tok, email, rfl, hb, hv, by simp [get_user_id, hauth, hb, hv]⟩
        | none => exact Or.inr (by simp [get_user_id, hauth, hb, hv])
      · exact Or.inr (by simp [get_user_id, hauth, hb])
  constructor
  · rcases main with ⟨tok, email, _, _, _, heq⟩ | heq <;> rw [heq, String.length_append]
    · have : ("email:").length = 6 := rfl
      omega
    · have : ("anon:").length = 5 := rfl
      omega
  · exact main.imp id (fun h => ⟨h, length_anonFingerprint req, hhex⟩)

/-- C7: the recent-window history query returns at most 8 turns, in
chronologically ascending timestamp order; it returns the empty sequence
when the session has no matching turns; and the turns it returns are the
most recent ones — every matching turn it drops has a timestamp at most
that of every returned turn. -/
theorem recentWindow_bounded_ascending (msgs : List Turn) (uid sid : String) :
    (recentWindow msgs uid sid).length ≤ 8 ∧
    List.Pairwise (fun a b => a.ts ≤ b.ts) (recentWindow msgs uid sid) ∧
    (msgs.filter (fun m => m.user_id == uid && m.session_id == sid) = [] →
      recentWindow msgs uid sid = []) ∧
    (∀ x ∈ recentWindow msgs uid sid,
      ∀ y ∈ ((msgs.filter (fun m => m.user_id == uid && m.session_id == sid)).mergeSort
          (fun x y => decide (y.ts ≤ x.ts))).drop 8,
        y.ts ≤ x.ts) := by
  have hsorted : List.Pairwise (fun a b : Turn => decide (b.ts ≤ a.ts) = true)
      ((msgs.filter (fun m => m.user_id == uid && m.session_id == sid)).mergeSort
        (fun x y => decide (y.ts ≤ x.ts))) := by
    apply List.sorted_mergeSort
    · intro a b c hab hbc
      simp only [decide_eq_true_eq] at *
      exact le_trans hbc hab
    · intro a b
      simp [le_total]
  refine ⟨?_, ?_, ?_, ?_⟩
  · simp only [recentWindow, List.length_reverse, List.length_take]
    exact min_le_left _ _
  · rw [recentWindow, List.pairwise_reverse]
    have htake := List.Pairwise.sublist (List.take_sublist 8 _) hsorted
    exact htake.imp (fun h => by simpa using h)
  · intro h
    simp [recentWindow, h]
  · intro x hx y hy
    rw [recentWindow, List.mem_reverse] at hx
    have hsplit := hsorted
    rw [← List.take_append_drop 8 ((msgs.filter
      (fun m => m.user_id == uid && m.session_id == sid)).mergeSort
        (fun x y => decide (y.ts ≤ x.ts))), List.pairwise_append] at hsplit
    have := hsplit.2.2 x hx y hy
    simpa using this

/-- C7 witness: the query properties instantiated at a concrete log. -/
theorem recentWindow_bounded_ascending_witness :
    (recentWindow ([] : List Turn) "u" "s").length ≤ 8 ∧
    List.Pairwise (fun a b => a.ts ≤ b.ts) (recentWindow ([] : List Turn) "u" "s") ∧
    (List.filter (fun m => m.user_id == "u" && m.session_id == "s") ([] : List Turn) = [] →
      recentWindow ([] : List Turn) "u" "s" = []) ∧
    (∀ x ∈ recentWindow ([] : List Turn) "u" "s",
      ∀ y ∈ ((List.filter (fun m => m.user_id == "u" && m.session_id == "s")
          ([] : List Turn)).mergeSort (fun x y => decide (y.ts ≤ x.ts))).drop 8,
        y.ts ≤ x.ts) :=
  recentWindow_bounded_ascending [] "u" "s"

/-- Number of session documents stored for a given (identity, session-id). -/
def sessionCount (st : Store) (uid sid : String) : Nat :=
  (st.sessions.filter (fun s => s.user_id == uid && s.session_id == sid)).length

/-- C9: `get_or_create_default_session` is idempotent.  Under the invariant
that at most one session row exists for (identity, `"default"`), calling it
twice returns `"default"` both times and the store still holds at most one
row for that pair. -/
theorem get_or_create_default_session_idempotent (uid : String) (st : Store)
    (n1 n2 : Rat) (hinv : sessionCount st uid "default" ≤ 1) :
    (get_or_create_default_session uid st n1).1 = "default" ∧
    (get_or_create_default_session uid
      (get_or_create_default_session uid st n1).2 n2).1 = "default" ∧
    sessionCount (get_or_create_default_session uid
      (get_or_create_default_session uid st n1).2 n2).2 uid "default" ≤ 1 := by
  simp only [get_or_create_default_session, sessionCount] at *
  cases h : st.sessions.find? (fun s => s.user_id == uid && s.session_id == "default") with
  | some s => simp [h, hinv]
  | none =>
    have hfilter : st.sessions.filter
        (fun s => s.user_id == uid && s.session_id == "default") = [] := by
      rw [List.filter_eq_nil_iff]
      intro a ha
      exact List.find?_eq_none.mp h a ha
    simp [h, List.find?_append, hfilter, List.filter_append]

/-- C9 witness: both calls on an initially empty store return `"default"`
and leave a single (identity, `"default"`) row. -/
theorem get_or_create_default_session_idempotent_witness :
    sessionCount ⟨[], []⟩ "u" "default" ≤ 1 ∧
    ((get_or_create_default_session "u" ⟨[], []⟩ 0).1 = "default" ∧
      (get_or_create_default_session "u"
        (get_or_create_default_session "u" ⟨[], []⟩ 0).2 0).1 = "default" ∧
      sessionCount (get_or_create_default_session "u"
        (get_or_create_default_session "u" ⟨[], []⟩ 0).2 0).2 "u" "default" ≤ 1) :=
  ⟨by decide, get_or_create_default_session_idempotent "u" ⟨[], []⟩ 0 0 (by decide)⟩

/-- The catalog block as the claim words it once amended with the `Club: `
line marker: the first at most 20 records rendered as
`Club: <name> - <description> - Majors: <majors>` lines joined by newlines
(missing fields fall back to `Unknown` / `No description` / `N/A`), and the
literal no-data sentinel line for an empty catalog.  Kept separate from
`clubsContext` (which is transcribed from the code) so the two can be
compared. -/
def claimCatalogBlock (clubs : List Club) : String :=
  if clubs = [] then "No clubs are currently in the database."
  else
    String.intercalate "\n"
      ((clubs.take 20).map (fun c =>
        "Club: " ++ c.club_name.getD "Unknown" ++ " - " ++
        c.description.getD "No description" ++ " - Majors: " ++ c.majors.getD "N/A"))

/-- C8 counterexample: the catalog line of the code carries a `Club: `
marker that the template `<name> - <description> - Majors: <majors>` of
the claim omits, so on a one-club catalog the block is not the claimed
line. -/
theorem clubsContext_line_marker_cex :
    clubsContext [⟨some "AI Society", some "A club for AI enthusiasts", some "CS"⟩] =
      "Club: AI Society - A club for AI enthusiasts - Majors: CS" ∧
    clubsContext [⟨some "AI Society", some "A club for AI enthusiasts", some "CS"⟩] ≠
      "AI Society - A club for AI enthusiasts - Majors: CS" := by
  constructor
  · rfl
  · decide

/-- C8 amended: the catalog block consists of the first at most 20 records
rendered as `Club: <name> - <description> - Majors: <majors>` lines joined
by newlines, and is exactly the literal no-data sentinel line for an empty
catalog. -/
theorem clubsContext_matches_amended_template (clubs : List Club) :
    clubsContext clubs = claimCatalogBlock clubs := by
  unfold clubsContext claimCatalogBlock
  rcases clubs with _ | ⟨c, cs⟩ <;> simp

/-- C10: when the model call returns a response object without a `text`
attribute, the chat request still succeeds: the assistant text is the
literal fallback `I could not generate a response.`, which is both returned
with success and persisted as the assistant turn. -/
theorem chat_missing_text_attribute_still_succeeds
    (jwtVerify : String → Option String) (env : ChatEnv) (req : ReqMeta)
    (data : ChatBody) (now : Rat) (st : Store)
    (hg : env.geminiAvailable = true)
    (hmsg : pyStrip (data.message.getD "") ≠ "")
    (clubs : List Club) (hclubs : env.clubsResult = .ok clubs)
    (hgen : ∀ p, env.gen p = .ok none)
    (h1 : env.insertUserErr = none) (h2 : env.insertAssistantErr = none)
    (h3 : env.touchErr = none) :
    (chat jwtVerify env req (some data) now st).1 =
      .success "I could not generate a response." "demo-session" ∧
    (chat jwtVerify env req (some data) now st).2.messages =
      st.messages ++
      [{ user_id := "demo-user", session_id := "demo-session", role := "user",
         text := pyStrip (data.message.getD ""), ts := now },
       { user_id := "demo-user", session_id := "demo-session", role := "assistant",
         text := "I could not generate a response.", ts := now + 1 / 1000 }] := by
  simp only [chat, hg, hmsg, hclubs, hgen, h1, h2, h3, Bool.not_true, Bool.false_eq_true,
    if_false, if_neg hmsg, touchSession_messages]
  by_cases hreq : pyStrip (data.session_id.getD "") = "" <;>
    simp [hreq, get_or_create_messages]

/-- C10 witness: concrete request on an empty store with a model response
lacking `text`. -/
theorem chat_missing_text_attribute_still_succeeds_witness :
    (chat (fun _ => some "student@gatech.edu")
        ⟨true, .ok [], fun _ => .ok none, none, none, none⟩
        ⟨some "Bearer tok", none, none⟩ (some ⟨some "hi", some "s1"⟩) 0 ⟨[], []⟩).1 =
      .success "I could not generate a response." "demo-session" ∧
    (chat (fun _ => some "student@gatech.edu")
        ⟨true, .ok [], fun _ => .ok none, none, none, none⟩
        ⟨some "Bearer tok", none, none⟩ (some ⟨some "hi", some "s1"⟩) 0 ⟨[], []⟩).2.messages =
      ([] : List Turn) ++
      [{ user_id := "demo-user", session_id := "demo-session", role := "user",
         text := pyStrip "hi", ts := 0 },
       { user_id := "demo-user", session_id := "demo-session", role := "assistant",
         text := "I could not generate a response.", ts := 0 + 1 / 1000 }] :=
  chat_missing_text_attribute_still_succeeds
    (fun _ => some "student@gatech.edu")
    ⟨true, .ok [], fun _ => .ok none, none, none, none⟩
    ⟨some "Bearer tok", none, none⟩ ⟨some "hi", some "s1"⟩ 0 ⟨[], []⟩
    rfl (by decide) [] rfl (fun p => rfl) rfl rfl rfl

/-- C5: when the model invocation raises, no turn is persisted — the turn
log after the request equals the turn log before it — and an error
response (the 500 unexpected-error payload) is returned instead of a
success. -/
theorem chat_model_failure_leaves_log_unchanged
    (jwtVerify : String → Option String) (env : ChatEnv) (req : ReqMeta)
    (data : ChatBody) (now : Rat) (st : Store)
    (hg : env.geminiAvailable = true)
    (hmsg : pyStrip (data.message.getD "") ≠ "")
    (clubs : List Club) (hclubs : env.clubsResult = .ok clubs)
    (e : String) (hgen : ∀ p, env.gen p = .raise e) :
    (chat jwtVerify env req (some data) now st).1 =
      .failure ("Unexpected error: " ++ e) 500 ∧
    (chat jwtVerify env req (some data) now st).2.messages = st.messages := by
  simp only [chat, hg, hmsg, hclubs, hgen, Bool.not_true, Bool.false_eq_true,
    if_false, if_neg hmsg]
  by_cases hreq : pyStrip (data.session_id.getD "") = "" <;>
    simp [hreq, get_or_create_messages]

/-- C5 witness: a concrete request whose model call raises leaves the log
unchanged and yields the 500 error. -/
theorem chat_model_failure_leaves_log_unchanged_witness :
    (chat (fun _ => some "student@gatech.edu")
        ⟨true, .ok [], fun _ => .raise "boom", none, none, none⟩
        ⟨some "Bearer tok", none, none⟩ (some ⟨some "hi", some "s1"⟩) 0
        ⟨[], [⟨"demo-user", "demo-session", "user", "old", 0⟩]⟩).1 =
      .failure ("Unexpected error: " ++ "boom") 500 ∧
    (chat (fun _ => some "student@gatech.edu")
        ⟨true, .ok [], fun _ => .raise "boom", none, none, none⟩
        ⟨some "Bearer tok", none, none⟩ (some ⟨some "hi", some "s1"⟩) 0
        ⟨[], [⟨"demo-user", "demo-session", "user", "old", 0⟩]⟩).2.messages =
      [⟨"demo-user", "demo-session", "user", "old", 0⟩] :=
  chat_model_failure_leaves_log_unchanged
    (fun _ => some "student@gatech.edu")
    ⟨true, .ok [], fun _ => .raise "boom", none, none, none⟩
    ⟨some "Bearer tok", none, none⟩ ⟨some "hi", some "s1"⟩ 0
    ⟨[], [⟨"demo-user", "demo-session", "user", "old", 0⟩]⟩
    rfl (by decide) [] rfl "boom" (fun p => rfl)

/-- C3 counterexample: with a generated answer already in hand
(`Here are some clubs!`) and a failing turn-persistence write, the request
does not return the generated answer as a success: it returns the 500
unexpected-error response. -/
theorem chat_persistence_failure_changes_outcome_cex :
    (chat (fun _ => some "student@gatech.edu")
        ⟨true, .ok [], fun _ => .ok (some "Here are some clubs!"), some "server down",
          none, none⟩
        ⟨some "Bearer tok", none, none⟩ (some ⟨some "hi", some "s1"⟩) 0 ⟨[], []⟩).1 =
      .failure ("Unexpected error: " ++ "server down") 500 ∧
    (chat (fun _ => some "student@gatech.edu")
        ⟨true, .ok [], fun _ => .ok (some "Here are some clubs!"), some "server down",
          none, none⟩
        ⟨some "Bearer tok", none, none⟩ (some ⟨some "hi", some "s1"⟩) 0 ⟨[], []⟩).1 ≠
      .success "Here are some clubs!" "s1" ∧
    (chat (fun _ => some "student@gatech.edu")
        ⟨true, .ok [], fun _ => .ok (some "Here are some clubs!"), some "server down",
          none, none⟩
        ⟨some "Bearer tok", none, none⟩ (some ⟨some "hi", some "s1"⟩) 0 ⟨[], []⟩).1 ≠
      .success "Here are some clubs!" "demo-session" := by
  refine ⟨by decide, by decide, by decide⟩

/-- C3 amended: a failure of turn persistence or of the session touch after
model generation is not swallowed: the request returns the 500
unexpected-error response, and the generated answer is not returned as a
success. -/
theorem chat_persistence_failure_returns_500
    (jwtVerify : String → Option String) (env : ChatEnv) (req : ReqMeta)
    (data : ChatBody) (now : Rat) (st : Store)
    (hg : env.geminiAvailable = true)
    (hmsg : pyStrip (data.message.getD "") ≠ "")
    (clubs : List Club) (hclubs : env.clubsResult = .ok clubs)
    (t : String) (hgen : ∀ p, env.gen p = .ok (some t))
    (hfail : env.insertUserErr ≠ none ∨ env.insertAssistantErr ≠ none ∨
      env.touchErr ≠ none) :
    (∃ e, (chat jwtVerify env req (some data) now st).1 =
      .failure ("Unexpected error: " ++ e) 500) ∧
    ∀ rsp sid, (chat jwtVerify env req (some data) now st).1 ≠
      ChatOutcome.success rsp sid := by
  have main : ∃ e, (chat jwtVerify env req (some data) now st).1 =
      .failure ("Unexpected error: " ++ e) 500 := by
    simp only [chat, hg, hmsg, hclubs, hgen, Bool.not_true, Bool.false_eq_true,
      if_false, if_neg hmsg]
    cases h1 : env.insertUserErr with
    | some e => exact ⟨e, by by_cases hreq : pyStrip (data.session_id.getD "") = "" <;>
        simp [hreq, h1]⟩
    | none =>
      cases h2 : env.insertAssistantErr with
      | some e => exact ⟨e, by by_cases hreq : pyStrip (data.session_id.getD "") = "" <;>
          simp [hreq, h1, h2]⟩
      | none =>
        cases h3 : env.touchErr with
        | some e => exact ⟨e, by by_cases hreq : pyStrip (data.session_id.getD "") = "" <;>
            simp [hreq, h1, h2, h3]⟩
        | none =>
          rcases hfail with h | h | h <;> [exact absurd h1 h; exact absurd h2 h;
            exact absurd h3 h]
  refine ⟨main, ?_⟩
  obtain ⟨e, he⟩ := main
  intro rsp sid hcontra
  rw [he] at hcontra
  exact ChatOutcome.noConfusion hcontra

/-- C3 amended witness: a concrete failing session-touch write yields the
500 error response. -/
theorem chat_persistence_failure_returns_500_witness :
    (∃ e, (chat (fun _ => some "student@gatech.edu")
        ⟨true, .ok [], fun _ => .ok (some "ans"), none, none, some "touch down"⟩
        ⟨some "Bearer tok", none, none⟩ (some ⟨some "hi", some "s1"⟩) 0 ⟨[], []⟩).1 =
      .failure ("Unexpected error: " ++ e) 500) ∧
    ∀ rsp sid, (chat (fun _ => some "student@gatech.edu")
        ⟨true, .ok [], fun _ => .ok (some "ans"), none, none, some "touch down"⟩
        ⟨some "Bearer tok", none, none⟩ (some ⟨some "hi", some "s1"⟩) 0 ⟨[], []⟩).1 ≠
      ChatOutcome.success rsp sid :=
  chat_persistence_failure_returns_500
    (fun _ => some "student@gatech.edu")
    ⟨true, .ok [], fun _ => .ok (some "ans"), none, none, some "touch down"⟩
    ⟨some "Bearer tok", none, none⟩ ⟨some "hi", some "s1"⟩ 0 ⟨[], []⟩
    rfl (by decide) [] rfl "ans" (fun p => rfl)
    (Or.inr (Or.inr (by decide)))

/-! ## End-to-end scenario evidence (claims C1, C2, C4) -/

/-- The scenario-A catalog: one club named `AI Society`. -/
def aiCatalog : List Club :=
  [⟨some "AI Society", some "A club for AI enthusiasts", some "CS"⟩]

/-- An environment whose model echoes the composed prompt back as its
answer, making the prompt handed to the model observable in the response;
all stores are healthy. -/
def envEchoModel : ChatEnv :=
  { geminiAvailable := true, clubsResult := .ok aiCatalog,
    gen := fun p => .ok (some p), insertUserErr := none,
    insertAssistantErr := none, touchErr := none }

/-- Scenario A, first call: no bearer token, no session id, message
`Any AI clubs?`, empty stores, time 0. -/
def scenarioCall1 : ChatOutcome × Store :=
  chat (fun _ => none) envEchoModel ⟨none, none, none⟩
    (some ⟨some "Any AI clubs?", none⟩) 0 ⟨[], []⟩

/-- Scenario A, second call: message `Tell me more` with the session id
returned by the first call (`demo-session`), at time 1, against the store
the first call produced. -/
def scenarioCall2 : ChatOutcome × Store :=
  chat (fun _ => none) envEchoModel ⟨none, none, none⟩
    (some ⟨some "Tell me more", some "demo-session"⟩) 1 scenarioCall1.2

set_option maxRecDepth 100000 in
/-- C1: evidence at the scenario-A input.  The first call succeeds and a
session row is created under the anon-derived identity (the SHA-256
fingerprint of the empty origin metadata), but the two persisted turns are
keyed by the starter placeholder identity `demo-user` / `demo-session`
(lines 374-375), not by that anon identity; and although the second call
finds the prior user/assistant pair under the very keys the history query
uses, its composed prompt (echoed back by the model) carries the empty
transcript block produced by the starter fallback at line 391, not that
pair. -/
theorem chat_placeholders_break_memory :
    scenarioCall1.1 =
      .success (systemPrompt (clubsContext aiCatalog) "" ++
        "\n\nUser: Any AI clubs?\n\nAssistant:") "demo-session" ∧
    scenarioCall1.2.sessions.map Session.user_id =
      ["anon:e3b0c44298fc1c149afbf4c8996fb924", "demo-user"] ∧
    scenarioCall1.2.messages.map (fun t => (t.user_id, t.session_id, t.role)) =
      [("demo-user", "demo-session", "user"), ("demo-user", "demo-session", "assistant")] ∧
    (scenarioCall1.2.messages.filter
      (fun m => m.user_id == "demo-user" && m.session_id == "demo-session")).length = 2 ∧
    scenarioCall2.1 =
      .success (systemPrompt (clubsContext aiCatalog) "" ++
        "\n\nUser: Tell me more\n\nAssistant:") "demo-session" := by
  refine ⟨by decide, by decide, by decide, by decide, by decide⟩

/-- A healthy environment with an empty catalog and a fixed model answer. -/
def envPlainModel : ChatEnv :=
  { geminiAvailable := true, clubsResult := .ok [],
    gen := fun _ => .ok (some "resp"), insertUserErr := none,
    insertAssistantErr := none, touchErr := none }

/-- A chat request that supplies the non-empty session id `s1` in its body. -/
def chatWithSuppliedSid : ChatOutcome × Store :=
  chat (fun _ => some "student@gatech.edu") envPlainModel
    ⟨some "Bearer tok", none, none⟩ (some ⟨some "hi", some "s1"⟩) 0 ⟨[], []⟩

/-- C2: evidence that a supplied non-empty `session_id` is not used: the
placeholder assignment at line 375 replaces it, so the success response
reports `demo-session` instead of `s1` and both turns are persisted under
`demo-session`; nothing is stored under `s1`. -/
theorem chat_ignores_supplied_session_id :
    chatWithSuppliedSid.1 = .success "resp" "demo-session" ∧
    chatWithSuppliedSid.1 ≠ .success "resp" "s1" ∧
    chatWithSuppliedSid.2.messages.map Turn.session_id = ["demo-session", "demo-session"] ∧
    chatWithSuppliedSid.2.messages.filter (fun m => m.session_id == "s1") = [] := by
  refine ⟨by decide, by decide, by decide, by decide⟩

/-- C4: evidence that a valid registration of a fresh user does not create
the user: because `bcrypt` is never imported, the hash step raises and the
route answers 500 with the `NameError` text, leaving the user collection
unchanged. -/
theorem register_bcrypt_undefined_returns_500 :
    register (some ⟨some "test@gatech.edu", some "password123", some "Test User"⟩) [] =
      (.serverError "name bcrypt is not defined", []) ∧
    (register (some ⟨some "test@gatech.edu", some "password123", some "Test User"⟩) []).1 ≠
      .created "test@gatech.edu" "Test User" := by
  refine ⟨by decide, by decide⟩
